import Mathlib

/-!
Shallow embedding of the voxpop request-lifecycle decorators:
`src/decorators.js` (the key / cached / fetching wrappers),
`src/action-creators.js` (the four dispatched action shapes) and
`src/reducers.js` (the fetching / cache / error reducers and their
combineReducers wiring).

Promises are modelled by the outcome they eventually settle to
(`Except E V`); a thunk invocation is modelled as a pure function from its
inputs (ttl, selector readings, the clock, the outcome the wrapped
operation would settle to) to a record of the effects it dispatches and
the outcome its returned promise settles to.  The store-wiring claims use
a small model of JavaScript objects and the lodash `get` path lookup, so
that the mount points chosen by combineReducers and the property paths
read by the default selectors are represented exactly as in the source.
-/

deriving instance DecidableEq for Except

namespace Voxpop

/-- A JavaScript function object as the key decorator sees it: a callable
together with an optional `KEY` property (src/decorators.js attaches the
key function with `reWrapped.KEY = keyFn`). -/
structure JsFun (α β κ : Type) where
  call : α → β
  KEY : Option κ

/-- src/decorators.js lines 26 to 32: `key(keyFn)` builds `reWrapped`, a
closure forwarding to `wrappedFunc`, sets `reWrapped.KEY = keyFn`, and then
returns `wrappedFunc` itself, discarding `reWrapped`.  The returned
function is therefore the original one, with whatever KEY it already had. -/
def key {α β κ : Type} (keyFn : κ) : JsFun α β κ → JsFun α β κ :=
  fun wrappedFunc =>
    let reWrapped : JsFun α β κ :=
      { call := fun args => wrappedFunc.call args, KEY := some keyFn }
    let _unusedReWrapped := reWrapped
    wrappedFunc

/-- src/decorators.js lines 38 to 44: `expired(time, ttl)` with the clock
reading `now` threaded explicitly in place of `new Date().getTime()`.  A
JS-falsy stored time (0, which is also the default the ttl selector
returns for a missing entry) means always expired. -/
def expired (time ttl now : Int) : Bool :=
  if time ≠ 0 then decide (now - time > ttl) else true

/-- Effects and outcome of one invocation of a cached-wrapped thunk:
how many times the wrapped operation was invoked, the arguments of the
dispatched `receive` calls, the dispatched cache-set events, and what the
returned promise settles to (`Except.ok ()` models `resolve()` with no
value). -/
structure CachedOutput (E V : Type) where
  invocations : Nat
  onResult : List V
  cacheSetEvents : List (String × Int)
  outcome : Except E Unit
  deriving DecidableEq

/-- src/decorators.js lines 66 to 90, the body of one invocation of the
thunk produced by `cached(receive, { ttl, cacheSet, ttlSelector })`:
compute `keyVal` from the attached key function; if
`expired(ttlSelector(getState(), keyVal), ttl)` is false, resolve with no
value and no effects; otherwise invoke the wrapped operation (whose
settled outcome is `op`) and, on success, dispatch `receive(result)`
(collected in `onResult`) and `cacheSet(keyVal, settleNow)` and resolve;
on failure, reject with the original error.  `now` is the clock when
`expired` reads it, `settleNow` is `new Date().getTime()` at settle time.
The guard throwing when no KEY is attached is the configuration-error
path; here the key function is an explicit argument. -/
def cached {S E V α : Type} (ttl : Int) (ttlSelector : S → String → Int)
    (keyFn : α → String) (args : α) (getState : S) (now settleNow : Int)
    (op : Except E V) : CachedOutput E V :=
  let keyVal := keyFn args
  if !(expired (ttlSelector getState keyVal) ttl now) then
    { invocations := 0, onResult := [], cacheSetEvents := [],
      outcome := Except.ok () }
  else
    match op with
    | Except.ok result =>
        { invocations := 1, onResult := [result],
          cacheSetEvents := [(keyVal, settleNow)], outcome := Except.ok () }
    | Except.error e =>
        { invocations := 1, onResult := [], cacheSetEvents := [],
          outcome := Except.error e }

/-- The default ttl selector (src/decorators.js line 62) reads
`cache[keyVal].timestamp` with default 0.  The state argument maps a key
to the timestamp stored in its cache entry object, when one exists. -/
def cacheTtlSelector (state : String → Option Int) (keyVal : String) : Int :=
  (state keyVal).getD 0

/-- The four action shapes built by src/action-creators.js:
`cacheSetAction(key, timestamp)` of type CACHE_SET,
`beginAction(key, promise)` of type BEGIN_REQUEST (its payload is the
running request, modelled by the outcome it settles to),
`endAction(key)` of type END_REQUEST, and
`errorAction(key, error)` of type ERROR_REQUEST. -/
inductive Action (E V : Type) : Type where
  | cacheSet (key : String) (timestamp : Int)
  | beginRequest (key : String) (payload : Except E V)
  | endRequest (key : String)
  | errorRequest (key : String) (error : E)
  deriving DecidableEq

/-- Effects and outcome of one invocation of a fetching-wrapped thunk.
`syncEvents` are dispatched synchronously, before the thunk returns
control to its caller; `asyncEvents` are dispatched from the continuation
attached to the request, after it settles. -/
structure FetchOutput (E V : Type) where
  invocations : Nat
  syncEvents : List (Action E V)
  asyncEvents : List (Action E V)
  outcome : Except E V
  deriving DecidableEq

/-- src/decorators.js lines 99 to 135, the body of one invocation of the
thunk produced by `fetching({ inflightSelector, ... })`: compute
`keyValue` from the attached key function, read
`inflightSelector(getState(), keyValue)`; if a request is found, resolve
with that existing promise (adopting its eventual outcome) with no new
invocation and no dispatched events; otherwise invoke the wrapped
operation (its settled outcome is `op`), synchronously dispatch
`beginAction(keyValue, request)`, and once the request settles dispatch
`endAction(keyValue)` and resolve with the result, or
`errorAction(keyValue, error)` and reject with the error. -/
def fetching {S E V α : Type} (inflightSelector : S → String → Option (Except E V))
    (keyFn : α → String) (args : α) (getState : S) (op : Except E V) :
    FetchOutput E V :=
  let keyValue := keyFn args
  match inflightSelector getState keyValue with
  | some inflightRequest =>
      { invocations := 0, syncEvents := [], asyncEvents := [],
        outcome := inflightRequest }
  | none =>
      match op with
      | Except.ok result =>
          { invocations := 1,
            syncEvents := [Action.beginRequest keyValue (Except.ok result)],
            asyncEvents := [Action.endRequest keyValue],
            outcome := Except.ok result }
      | Except.error error =>
          { invocations := 1,
            syncEvents := [Action.beginRequest keyValue (Except.error error)],
            asyncEvents := [Action.errorRequest keyValue error],
            outcome := Except.error error }

/-- src/reducers.js lines 24 to 37: the fetching reducer.  The state maps
each key to the stored BEGIN_REQUEST payload (the reducer stores the raw
payload under the key).  Only END_REQUEST removes an entry; every other
action type, ERROR_REQUEST included, falls through to the default branch
and leaves the state unchanged. -/
def fetchingReducer {E V : Type} (state : String → Option (Except E V)) :
    Action E V → String → Option (Except E V)
  | Action.beginRequest key payload =>
      fun k => if k = key then some payload else state k
  | Action.endRequest key =>
      fun k => if k = key then none else state k
  | _ => state

/-- src/reducers.js lines 49 to 57: the cache reducer stores the timestamp
directly under the key on CACHE_SET and leaves the state unchanged
otherwise. -/
def cacheReducer {E V : Type} (state : String → Option Int) :
    Action E V → String → Option Int
  | Action.cacheSet key timestamp =>
      fun k => if k = key then some timestamp else state k
  | _ => state

/-- src/reducers.js lines 75 to 83, with the crash path explicit: the
error reducer first destructures the key out of the meta property of the
action, which throws a TypeError when the action carries no meta —
among the four action shapes only cache-set, whose key travels in its
payload (src/action-creators.js lines 21 to 24), lacks one.  The result
`none` models that throw.  When the destructuring succeeds, the switch
stores the error under the key on ERROR_REQUEST and falls to the default
branch on every other type, leaving the state unchanged; no case ever
removes an entry. -/
def errorReducer {E V : Type} (state : String → Option E) :
    Action E V → Option (String → Option E)
  | Action.cacheSet _ _ => none
  | Action.beginRequest _ _ => some state
  | Action.endRequest _ => some state
  | Action.errorRequest key e =>
      some (fun k => if k = key then some e else state k)

/-- A JavaScript value, as far as the store wiring reads and writes one:
`undef` for undefined, numbers, strings, a promise identified by the
handle of the running request, and plain objects as property lists. -/
inductive JsVal : Type where
  | undef : JsVal
  | num : Int → JsVal
  | str : String → JsVal
  | promise : Nat → JsVal
  | obj : List (String × JsVal) → JsVal

/-- Property read on a JS object: an absent property reads as undefined. -/
def objGet : List (String × JsVal) → String → JsVal
  | [], _ => JsVal.undef
  | (k, v) :: rest, name => if name = k then v else objGet rest name

/-- Property update in the spread style the reducers use
(`\x7b ...state, [key]: value \x7d`). -/
def objSet (fields : List (String × JsVal)) (name : String) (v : JsVal) :
    List (String × JsVal) :=
  (fields.filter (fun p => p.1 != name)) ++ [(name, v)]

/-- Property removal in the rest-destructuring style the fetching reducer
uses on END_REQUEST. -/
def objRemove (fields : List (String × JsVal)) (name : String) :
    List (String × JsVal) :=
  fields.filter (fun p => p.1 != name)

/-- lodash `get(value, path)` as imported by src/decorators.js: walk a
property path, producing undefined as soon as a step is missing or the
current value carries no properties the source reads (numbers, strings
and promise handles carry none). -/
def jsGet : JsVal → List String → JsVal
  | v, [] => v
  | JsVal.obj fields, name :: rest => jsGet (objGet fields name) rest
  | _, _ :: _ => JsVal.undef

/-- JS truthiness of the values above, for the
`if (inflightRequest)` test. -/
def truthy : JsVal → Bool
  | JsVal.undef => false
  | JsVal.num n => n != 0
  | JsVal.str s => s != ""
  | JsVal.promise _ => true
  | JsVal.obj _ => true

/-- src/decorators.js line 105: the default in-flight selector reads
`state.requestCache[keyValue].inflight` with lodash get. -/
def selectInflight (state : JsVal) (keyValue : String) : JsVal :=
  jsGet state ["requestCache", keyValue, "inflight"]

/-- The four action shapes of src/action-creators.js at the level of the
store wiring, with the begin payload as a promise handle and the error as
its message. -/
inductive JsAction : Type where
  | cacheSet (key : String) (timestamp : Int)
  | beginRequest (key : String) (payload : Nat)
  | endRequest (key : String)
  | errorRequest (key : String) (error : String)
  deriving DecidableEq

/-- src/reducers.js lines 24 to 37 over the store representation:
BEGIN_REQUEST stores the raw payload under the key, END_REQUEST removes
the key, every other action leaves the slice unchanged. -/
def fetchingReducerJs (state : List (String × JsVal)) :
    JsAction → List (String × JsVal)
  | JsAction.beginRequest key payload => objSet state key (JsVal.promise payload)
  | JsAction.endRequest key => objRemove state key
  | _ => state

/-- src/reducers.js lines 49 to 57 over the store representation:
CACHE_SET stores the timestamp directly under the key. -/
def cacheReducerJs (state : List (String × JsVal)) :
    JsAction → List (String × JsVal)
  | JsAction.cacheSet key timestamp => objSet state key (JsVal.num timestamp)
  | _ => state

/-- src/reducers.js lines 75 to 83 over the store representation:
ERROR_REQUEST stores the error under the key. -/
def errorReducerJs (state : List (String × JsVal)) :
    JsAction → List (String × JsVal)
  | JsAction.errorRequest key e => objSet state key (JsVal.str e)
  | _ => state

/-- A slice value handed to a slice reducer: combineReducers passes the
field stored under the slice name, and each reducer defaults a missing
slice to the empty object. -/
def sliceFields : JsVal → List (String × JsVal)
  | JsVal.obj fields => fields
  | _ => []

/-- src/reducers.js lines 86 to 90: combineReducers mounts the three
slice reducers under the field names `error`, `cache` and `fetching`. -/
def rootReducer (state : JsVal) (a : JsAction) : JsVal :=
  JsVal.obj
    [("error", JsVal.obj (errorReducerJs (sliceFields (jsGet state ["error"])) a)),
     ("cache", JsVal.obj (cacheReducerJs (sliceFields (jsGet state ["cache"])) a)),
     ("fetching", JsVal.obj (fetchingReducerJs (sliceFields (jsGet state ["fetching"])) a))]

/-- The store produced by the combined reducer before any action: every
slice reducer starts from its default empty-object state. -/
def initialRoot : JsVal :=
  JsVal.obj
    [("error", JsVal.obj []), ("cache", JsVal.obj []),
     ("fetching", JsVal.obj [])]

/-- Result of the synchronous phase of one deduplicated call run against
the live store. -/
structure SyncStep where
  invocations : Nat
  dispatched : List JsAction
  store : JsVal

/-- The synchronous phase of one invocation of the fetching-wrapped thunk
(src/decorators.js lines 117 to 125) against a store maintained by the
combined reducer: read the default in-flight selector; if it finds a
truthy value, make no invocation and dispatch nothing during this phase;
otherwise invoke the wrapped operation (whose running request is the
handle `pid`) and dispatch the begin action, which the store reduces
before control returns. -/
def fetchingSyncStep (store : JsVal) (keyValue : String) (pid : Nat) :
    SyncStep :=
  if truthy (selectInflight store keyValue) then
    { invocations := 0, dispatched := [], store := store }
  else
    { invocations := 1,
      dispatched := [JsAction.beginRequest keyValue pid],
      store := rootReducer store (JsAction.beginRequest keyValue pid) }

/-- Two concurrent calls for the key `foo`: caller A runs its synchronous
phase to completion, then caller B runs its synchronous phase, before
either request settles — the single-threaded interleaving the dedup
invariant is about. -/
def dedupScenario : SyncStep :=
  let stepA := fetchingSyncStep initialRoot "foo" 1
  let stepB := fetchingSyncStep stepA.store "foo" 2
  { invocations := stepA.invocations + stepB.invocations,
    dispatched := stepA.dispatched ++ stepB.dispatched,
    store := stepB.store }

/-- Claim C1: the claim states that key(keyFn)(f) carries keyFn as
retrievable metadata (its KEY property equals keyFn) while behaving as f.
The code contradicts this (and the repo unit test expecting testFunc.KEY
to be defined): at the test input — a fresh function without a KEY,
tagged with a key function — the returned function still has no KEY,
because the source sets KEY on the discarded reWrapped closure and
returns wrappedFunc unchanged. -/
theorem key_returns_function_without_KEY :
    (key (fun _ : Unit => "keyval")
        ({ call := fun _ => (0 : Nat), KEY := none } :
          JsFun Unit Nat (Unit → String))).KEY = none :=
  rfl

/-- Claim C4 counterexample: with ttl 0 and the recorded timestamp equal
to the clock (age exactly 0), the cached gate takes the cache-hit path
and does not invoke the wrapped operation, although the claim requires
the stale path for every ttl at most 0 regardless of the timestamp. -/
theorem cached_ttl_zero_age_zero_hit :
    (cached 0 cacheTtlSelector (fun _ : Unit => "baz") ()
        (fun k => if k = "baz" then some 1000 else none) 1000 1000
        (Except.ok "hotdogs" : Except String String)).invocations = 0 := by
  decide

/-- Claim C4 amended: for every ttl at most 0, an invocation of the
cached gate takes the stale path and re-invokes the wrapped operation
whenever the timestamp read by the ttl selector is absent (0) or strictly
earlier than the clock; with ttl 0 and a recorded timestamp equal to the
clock (age exactly 0), the call takes the cache-hit path instead. -/
theorem cached_nonpos_ttl_past_timestamp_stale
    {S E V α : Type} (ttl : Int) (ttlSelector : S → String → Int)
    (keyFn : α → String) (args : α) (st : S) (now settleNow : Int)
    (op : Except E V)
    (httl : ttl ≤ 0)
    (htime : ttlSelector st (keyFn args) = 0 ∨ ttlSelector st (keyFn args) < now) :
    (cached ttl ttlSelector keyFn args st now settleNow op).invocations = 1 := by
  have hexp : expired (ttlSelector st (keyFn args)) ttl now = true := by
    by_cases hz : ttlSelector st (keyFn args) = 0
    · simp [expired, hz]
    · rcases htime with h0 | hlt
      · exact absurd h0 hz
      · simp [expired, hz]
        omega
  cases op with
  | ok v => simp [cached, hexp]
  | error e => simp [cached, hexp]

/-- Witness for the amended claim C4, at the spec scenario: ttl 0 and a
timestamp 1000 units in the past give one invocation. -/
theorem cached_nonpos_ttl_past_timestamp_stale_witness :
    (cached 0 cacheTtlSelector (fun _ : Unit => "baz") ()
        (fun k => if k = "baz" then some 1000 else none) 2000 2000
        (Except.ok "hotdogs" : Except String String)).invocations = 1 :=
  cached_nonpos_ttl_past_timestamp_stale _ _ _ _ _ _ _ _ (by decide)
    (Or.inr (by decide))

/-- Claim C5: when a timestamp is recorded for the key (the ttl selector
reads a nonzero value) and it is within ttl of the clock, the cached gate
resolves immediately with no value, makes no invocation, calls onResult
never, and dispatches no cache-set event. -/
theorem cached_fresh_hit_no_effects
    {S E V α : Type} (ttl : Int) (ttlSelector : S → String → Int)
    (keyFn : α → String) (args : α) (st : S) (now settleNow : Int)
    (op : Except E V)
    (hrec : ttlSelector st (keyFn args) ≠ 0)
    (hfresh : now - ttlSelector st (keyFn args) ≤ ttl) :
    cached ttl ttlSelector keyFn args st now settleNow op =
      { invocations := 0, onResult := [], cacheSetEvents := [],
        outcome := Except.ok () } := by
  have hexp : expired (ttlSelector st (keyFn args)) ttl now = false := by
    simp [expired, hrec]
    omega
  simp [cached, hexp]

/-- Witness for claim C5, at the spec scenario: ttl 1000 and a timestamp
100 units old give a silent immediate resolution. -/
theorem cached_fresh_hit_no_effects_witness :
    cached 1000 cacheTtlSelector (fun _ : Unit => "baz") ()
        (fun k => if k = "baz" then some 900 else none) 1000 1000
        (Except.ok "doges" : Except String String) =
      { invocations := 0, onResult := [], cacheSetEvents := [],
        outcome := Except.ok () } :=
  cached_fresh_hit_no_effects _ _ _ _ _ _ _ _ (by decide) (by decide)

/-- Claim C6: when the timestamp read by the ttl selector is absent (0)
or older than ttl, the cached gate invokes the wrapped operation exactly
once and, the operation resolving with a value, calls onResult exactly
once with that value, dispatches exactly one cache-set event carrying the
key and the settle-time clock, and resolves with no value. -/
theorem cached_stale_invokes_once
    {S E V α : Type} (ttl : Int) (ttlSelector : S → String → Int)
    (keyFn : α → String) (args : α) (st : S) (now settleNow : Int) (v : V)
    (hstale : ttlSelector st (keyFn args) = 0 ∨
      now - ttlSelector st (keyFn args) > ttl) :
    cached ttl ttlSelector keyFn args st now settleNow (Except.ok v : Except E V) =
      { invocations := 1, onResult := [v],
        cacheSetEvents := [(keyFn args, settleNow)],
        outcome := Except.ok () } := by
  have hexp : expired (ttlSelector st (keyFn args)) ttl now = true := by
    by_cases hz : ttlSelector st (keyFn args) = 0
    · simp [expired, hz]
    · rcases hstale with h0 | hgt
      · exact absurd h0 hz
      · simp [expired, hz]
        omega
  simp [cached, hexp]

/-- Witness for claim C6, at the spec scenario: ttl 100, no prior cache
entry, operation resolving hotdogs — one invocation, one onResult, one
cache-set with the fresh timestamp. -/
theorem cached_stale_invokes_once_witness :
    cached 100 cacheTtlSelector (fun _ : Unit => "getUser-doge") ()
        (fun _ => (none : Option Int)) 5000 5000
        (Except.ok "hotdogs" : Except String String) =
      { invocations := 1, onResult := ["hotdogs"],
        cacheSetEvents := [("getUser-doge", 5000)],
        outcome := Except.ok () } :=
  cached_stale_invokes_once _ _ _ _ _ _ _ _ (Or.inl (by decide))

/-- Claim C7: when the in-flight selector finds an existing request for
the key, the fetching wrapper makes no new invocation, dispatches no
events at all, and its returned promise settles exactly as the existing
request does — with its value on success, with its reason on failure. -/
theorem fetching_attaches_to_inflight
    {S E V α : Type} (inflightSelector : S → String → Option (Except E V))
    (keyFn : α → String) (args : α) (st : S) (op : Except E V)
    (h : Except E V)
    (hfound : inflightSelector st (keyFn args) = some h) :
    fetching inflightSelector keyFn args st op =
      { invocations := 0, syncEvents := [], asyncEvents := [],
        outcome := h } := by
  simp [fetching, hfound]

/-- Witness for claim C7, at the spec scenario: an in-flight request that
settles to bar is found, so the call resolves to bar without any new
invocation or events, whatever a fresh invocation would have produced. -/
theorem fetching_attaches_to_inflight_witness :
    fetching
        (fun (_ : Unit) (_ : String) =>
          some (Except.ok "bar" : Except String String))
        (fun _ : Unit => "foo") () () (Except.ok "hotdogs") =
      { invocations := 0, syncEvents := [], asyncEvents := [],
        outcome := Except.ok "bar" } :=
  fetching_attaches_to_inflight _ _ _ _ _ _ rfl

/-- Claim C8: for an initiating invocation (no in-flight record found),
the begin event is dispatched in the synchronous phase — before control
returns to the caller and before the settlement of the request is
observable — and the asynchronous phase dispatches exactly one further
event: end on success or error on failure.  The trace per underlying
execution is begin followed by exactly one of end or error. -/
theorem fetching_event_order
    {S E V α : Type} (inflightSelector : S → String → Option (Except E V))
    (keyFn : α → String) (args : α) (st : S) (op : Except E V)
    (hnofl : inflightSelector st (keyFn args) = none) :
    (fetching inflightSelector keyFn args st op).syncEvents
        = [Action.beginRequest (keyFn args) op] ∧
    ((∃ v, op = Except.ok v ∧
        (fetching inflightSelector keyFn args st op).asyncEvents
          = [Action.endRequest (keyFn args)]) ∨
      (∃ e, op = Except.error e ∧
        (fetching inflightSelector keyFn args st op).asyncEvents
          = [Action.errorRequest (keyFn args) e])) := by
  cases op with
  | ok v =>
      exact ⟨by simp [fetching, hnofl],
        Or.inl ⟨v, rfl, by simp [fetching, hnofl]⟩⟩
  | error e =>
      exact ⟨by simp [fetching, hnofl],
        Or.inr ⟨e, rfl, by simp [fetching, hnofl]⟩⟩

/-- Witness for claim C8: an initiating successful call for foo emits
begin synchronously and exactly one end event asynchronously. -/
theorem fetching_event_order_witness :
    (fetching (fun (_ : Unit) (_ : String) => (none : Option (Except String String)))
        (fun _ : Unit => "foo") () () (Except.ok "hotdogs")).syncEvents
        = [Action.beginRequest "foo" (Except.ok "hotdogs")] ∧
    ((∃ v, (Except.ok "hotdogs" : Except String String) = Except.ok v ∧
        (fetching (fun (_ : Unit) (_ : String) => (none : Option (Except String String)))
            (fun _ : Unit => "foo") () () (Except.ok "hotdogs")).asyncEvents
          = [Action.endRequest "foo"]) ∨
      (∃ e, (Except.ok "hotdogs" : Except String String) = Except.error e ∧
        (fetching (fun (_ : Unit) (_ : String) => (none : Option (Except String String)))
            (fun _ : Unit => "foo") () () (Except.ok "hotdogs")).asyncEvents
          = [Action.errorRequest "foo" e])) :=
  fetching_event_order _ _ _ _ _ rfl

/-- Claim C9: when the wrapped operation fails, both wrappers propagate
the original reason unmodified: the cached gate (on its stale path, where
the operation is invoked at all) rejects with the original error and
records nothing — no onResult call, no cache-set event — and the fetching
wrapper rejects with the original error as well. -/
theorem failure_propagates_unmodified
    {S T E V α β : Type}
    (ttl now settleNow : Int) (ttlSelector : S → String → Int)
    (keyFn : α → String) (args : α) (st : S)
    (inflightSelector : T → String → Option (Except E V))
    (keyFn2 : β → String) (args2 : β) (st2 : T) (e : E)
    (hstale : expired (ttlSelector st (keyFn args)) ttl now = true)
    (hnofl : inflightSelector st2 (keyFn2 args2) = none) :
    cached ttl ttlSelector keyFn args st now settleNow
        (Except.error e : Except E V) =
      { invocations := 1, onResult := [], cacheSetEvents := [],
        outcome := Except.error e } ∧
    (fetching inflightSelector keyFn2 args2 st2
        (Except.error e : Except E V)).outcome = Except.error e := by
  constructor
  · simp [cached, hstale]
  · simp [fetching, hnofl]

/-- Witness for claim C9: with an empty cache and no in-flight record, an
operation rejecting with error rejects both wrappers with error, and the
cache gate records nothing. -/
theorem failure_propagates_unmodified_witness :
    cached 100 cacheTtlSelector (fun _ : Unit => "foo") ()
        (fun _ => (none : Option Int)) 5000 5000
        (Except.error "error" : Except String String) =
      { invocations := 1, onResult := [], cacheSetEvents := [],
        outcome := Except.error "error" } ∧
    (fetching (fun (_ : Unit) (_ : String) => (none : Option (Except String String)))
        (fun _ : Unit => "foo") () () (Except.error "error")).outcome
      = Except.error "error" :=
  failure_propagates_unmodified _ _ _ _ _ _ _ _ _ _ _ _ (by decide) rfl

/-- Claim C3 counterexample: running the deduplicated operation for foo
with no in-flight record and an operation rejecting with error, then
folding the dispatched actions through the provided fetching reducer,
leaves the in-flight record for foo in place — the reducer removes a
record only on END_REQUEST, and failure dispatches ERROR_REQUEST. -/
theorem inflight_record_survives_error :
    (((fetching (fun (_ : Unit) (_ : String) => (none : Option (Except String String)))
          (fun _ : Unit => "foo") () () (Except.error "error")).syncEvents ++
        (fetching (fun (_ : Unit) (_ : String) => (none : Option (Except String String)))
          (fun _ : Unit => "foo") () () (Except.error "error")).asyncEvents).foldl
        fetchingReducer (fun _ => none)) "foo"
      = some (Except.error "error") := by
  decide

/-- Claim C3 amended: when the operation for a key rejects while
deduplicated, exactly one request-error event is emitted and the returned
outcome rejects with the original reason, but the provided reducers
remove an in-flight record only on a request-end event: failure
dispatches request-error, so the record stored by the begin event remains
in the fetching reducer state after the rejection instead of being
cleared. -/
theorem fetching_error_keeps_inflight_record
    {S E V α : Type} (inflightSelector : S → String → Option (Except E V))
    (keyFn : α → String) (args : α) (st : S) (e : E)
    (s0 : String → Option (Except E V))
    (hnofl : inflightSelector st (keyFn args) = none) :
    (fetching inflightSelector keyFn args st (Except.error e)).asyncEvents
        = [Action.errorRequest (keyFn args) e] ∧
    (fetching inflightSelector keyFn args st (Except.error e)).outcome
        = Except.error e ∧
    (((fetching inflightSelector keyFn args st (Except.error e)).syncEvents ++
        (fetching inflightSelector keyFn args st (Except.error e)).asyncEvents).foldl
        fetchingReducer s0) (keyFn args)
      = some (Except.error e) := by
  refine ⟨by simp [fetching, hnofl], by simp [fetching, hnofl], ?_⟩
  simp [fetching, hnofl, fetchingReducer]

/-- Witness for the amended claim C3, at the spec scenario input. -/
theorem fetching_error_keeps_inflight_record_witness :
    (fetching (fun (_ : Unit) (_ : String) => (none : Option (Except String String)))
        (fun _ : Unit => "foo") () () (Except.error "error")).asyncEvents
        = [Action.errorRequest "foo" "error"] ∧
    (fetching (fun (_ : Unit) (_ : String) => (none : Option (Except String String)))
        (fun _ : Unit => "foo") () () (Except.error "error")).outcome
        = Except.error "error" ∧
    (((fetching (fun (_ : Unit) (_ : String) => (none : Option (Except String String)))
          (fun _ : Unit => "foo") () () (Except.error "error")).syncEvents ++
        (fetching (fun (_ : Unit) (_ : String) => (none : Option (Except String String)))
          (fun _ : Unit => "foo") () () (Except.error "error")).asyncEvents).foldl
        fetchingReducer (fun _ => none)) "foo"
      = some (Except.error "error") :=
  fetching_error_keeps_inflight_record _ _ _ _ _ _ rfl

/-- Claim C10 counterexample: the error reducer records e1 for key k
(first conjunct); running it again on a subsequent request-error action
for the same key yields a state whose entry for k is e2, no longer e1 —
so it is not the case that every subsequent action leaves the recorded
entry unchanged. -/
theorem errorReducer_second_error_changes_entry :
    ((errorReducer (fun _ => (none : Option String))
          (Action.errorRequest "k" "e1" : Action String Unit)).map
        (fun s1 => s1 "k") = some (some "e1")) ∧
    ((errorReducer (fun _ => (none : Option String))
          (Action.errorRequest "k" "e1" : Action String Unit)).bind
        (fun s1 =>
          (errorReducer s1 (Action.errorRequest "k" "e2" : Action String Unit)).map
            (fun s2 => s2 "k"))
      = some (some "e2")) ∧
    ((errorReducer (fun _ => (none : Option String))
          (Action.errorRequest "k" "e1" : Action String Unit)).bind
        (fun s1 =>
          (errorReducer s1 (Action.errorRequest "k" "e2" : Action String Unit)).map
            (fun s2 => s2 "k"))
      ≠ some (some "e1")) := by
  refine ⟨by decide, by decide, by decide⟩

/-- Claim C10 amended: among the four action shapes only cache-set makes
the error reducer throw (its destructuring of the meta key fails, and the
store state is left untouched); every action the reducer does process
keeps a recorded entry for key k present — no processed action removes
it — and, unless the action is itself a later request-error for k, it
leaves the entry at k unchanged, the begin and end events of a later
successful request for k included; a later request-error for k
overwrites the entry with the new error, so once an error is recorded
for k some error stays recorded for it indefinitely. -/
theorem errorReducer_never_removes
    {E V : Type} (s : String → Option E) (a : Action E V) (k : String)
    (hrec : (s k).isSome = true) :
    (∀ s2, errorReducer s a = some s2 →
      (s2 k).isSome = true ∧
      ((∀ e, a ≠ Action.errorRequest k e) → s2 k = s k)) ∧
    (errorReducer s a = none ↔ ∃ key ts, a = Action.cacheSet key ts) := by
  constructor
  · intro s2 hrun
    cases a with
    | cacheSet key ts => simp [errorReducer] at hrun
    | beginRequest key p =>
        simp only [errorReducer, Option.some.injEq] at hrun
        subst hrun
        exact ⟨hrec, fun _ => rfl⟩
    | endRequest key =>
        simp only [errorReducer, Option.some.injEq] at hrun
        subst hrun
        exact ⟨hrec, fun _ => rfl⟩
    | errorRequest key e =>
        simp only [errorReducer, Option.some.injEq] at hrun
        subst hrun
        constructor
        · by_cases hk : k = key
          · simp [hk]
          · simpa [hk] using hrec
        · intro hne
          have hk : ¬ k = key := fun h => hne e (by rw [h])
          simp [hk]
  · cases a with
    | cacheSet key ts =>
        simp only [errorReducer, true_iff]
        exact ⟨key, ts, rfl⟩
    | beginRequest key p => simp [errorReducer]
    | endRequest key => simp [errorReducer]
    | errorRequest key e => simp [errorReducer]

/-- Witness for the amended claim C10: with e1 recorded for key k, the
end event of a later successful request for k is processed without a
throw, keeps the entry for k present and leaves it unchanged, and the
reducer throw is characterised exactly: an end action never produces
it. -/
theorem errorReducer_never_removes_witness :
    (∀ s2, errorReducer (fun k => if k = "k" then some "e1" else (none : Option String))
          (Action.endRequest "k" : Action String Unit) = some s2 →
      (s2 "k").isSome = true ∧
      ((∀ e, (Action.endRequest "k" : Action String Unit)
            ≠ Action.errorRequest "k" e) →
        s2 "k" = (fun k => if k = "k" then some "e1" else (none : Option String)) "k")) ∧
    (errorReducer (fun k => if k = "k" then some "e1" else (none : Option String))
        (Action.endRequest "k" : Action String Unit) = none ↔
      ∃ key ts, (Action.endRequest "k" : Action String Unit)
        = Action.cacheSet key ts) :=
  errorReducer_never_removes _ _ "k" (by decide)

/-- Claim C2: the claim requires that, with the default in-flight
selector and the provided reducers wired together, two concurrent calls
for one key make exactly one underlying invocation and one begin event.
The code fails this: the first call stores its begin payload as the raw
promise at state.fetching[foo] (the combined reducer mounts the fetching
slice there), while the default selector reads
state.requestCache[foo].inflight, which stays undefined, so the second
call also finds no in-flight record and initiates — two underlying
invocations and two begin events. -/
theorem dedup_default_wiring_double_invocation :
    dedupScenario.invocations = 2 ∧
    dedupScenario.dispatched
        = [JsAction.beginRequest "foo" 1, JsAction.beginRequest "foo" 2] ∧
    selectInflight (fetchingSyncStep initialRoot "foo" 1).store "foo"
        = JsVal.undef ∧
    jsGet (fetchingSyncStep initialRoot "foo" 1).store ["fetching", "foo"]
        = JsVal.promise 1 :=
  ⟨rfl, by decide, rfl, rfl⟩

end Voxpop
